import Mathlib

/-!
Verification development for the color-transfer program (`colortransfer.cpp`).

The numerical core (`colorTransfer`, lines 41-120 of the source) is embedded
per channel over exact rationals.  IEEE floating-point non-finiteness
(infinities and NaN, which arise in the source exactly from dividing by a
zero standard deviation and from taking the log of a non-positive sample)
is tracked with `Option ℚ`: `none` models a non-finite value, and the
arithmetic below propagates `none` the way IEEE arithmetic propagates
non-finite values through the expressions the source actually evaluates
(`x / 0` is non-finite; adding, subtracting or multiplying a non-finite
value inside the transfer formula yields a non-finite value, since
`inf * 0 = NaN` and `NaN` absorbs everything).

The statistics (`meanStdDev`, line 84-85) are the per-channel population
mean and standard deviation over all pixels; the standard deviation enters
the theorems as a parameter constrained by `0 ≤ dev` and
`dev ^ 2 = variance plane`, because the square root is not a rational
operation.

The keypress handler `changeMode` (lines 132-193) and the input validation
of `main` (lines 209-217) are embedded as pure state transitions.
-/

namespace ColorTransfer

/-- A floating-point value that is either finite (an exact rational) or
non-finite (`none`, modelling IEEE `±inf` / `NaN`). -/
abbrev FQ := Option ℚ

/-- Addition; a non-finite operand makes the result non-finite (in the source
the only non-finite sums are `NaN + _` or `±inf + finite`). -/
def fadd : FQ → FQ → FQ
  | some a, some b => some (a + b)
  | _, _ => none

/-- Subtraction with non-finite propagation. -/
def fsub : FQ → FQ → FQ
  | some a, some b => some (a - b)
  | _, _ => none

/-- Multiplication; a non-finite operand makes the result non-finite
(`inf * 0 = NaN` in IEEE, so even a zero finite factor does not rescue it). -/
def fmul : FQ → FQ → FQ
  | some a, some b => some (a * b)
  | _, _ => none

/-- Division; dividing by zero produces a non-finite value (`±inf` or `NaN`),
exactly the hazard of `srcDevs[c] / dstDevs[c]` at line 100 of the source. -/
def fdiv : FQ → FQ → FQ
  | some a, some b => if b = 0 then none else some (a / b)
  | _, _ => none

/-- Population mean of one channel plane over all pixels, as computed by
`meanStdDev` (line 84-85). -/
def mean (l : List ℚ) : ℚ := l.sum / l.length

/-- Population variance of one channel plane over all pixels; the standard
deviation reported by `meanStdDev` is its (non-negative) square root. -/
def variance (l : List ℚ) : ℚ :=
  (l.map (fun x => (x - mean l) ^ 2)).sum / l.length

/-- The `cv::log` step (lines 79-80): each sample is sent to its natural log
when strictly positive, and to a non-finite value otherwise.  The value of
the log on positive inputs is abstracted as `ln`, since only finiteness
matters to the claims; the source applies it to every sample with no
clamping beforehand. -/
def cvLog (ln : ℚ → ℚ) (l : List ℚ) : List FQ :=
  l.map fun x => if 0 < x then some (ln x) else none

/-- Line 94: `rate = (double)trackbars.componentVals[component] / 100.0`. -/
def rate (v : ℤ) : ℚ := (v : ℚ) / 100

/-- Lines 99-102: `modifiedComponent = (srcDevs[c] / dstDevs[c]) *
(dstComponents[c] - dstAvgs[c]) + srcAvgs[c]`, elementwise over the target
channel plane, with no guard on `dstDevs[c] = 0`. -/
def modifiedComponent (srcDev dstDev dstAvg srcAvg : ℚ)
    (dstComponent : List ℚ) : List FQ :=
  dstComponent.map fun x =>
    fadd (fmul (fdiv (some srcDev) (some dstDev)) (fsub (some x) (some dstAvg)))
      (some srcAvg)

/-- Lines 105-106: `dstComponents[c] = dstComponents[c] * (1-rate) +
modifiedComponent * rate`, elementwise. -/
def transferComponent (srcDev dstDev dstAvg srcAvg r : ℚ)
    (dstComponent : List ℚ) : List FQ :=
  List.zipWith
    (fun d m => fadd (fmul (some d) (some (1 - r))) (fmul m (some r)))
    dstComponent
    (modifiedComponent srcDev dstDev dstAvg srcAvg dstComponent)

/-- One channel of the log-space core of `colorTransfer` (lines 83-107):
the means are computed over all pixels of the given log-transformed planes,
the standard deviations enter as parameters (they are square roots), and the
blend rate is the trackbar value divided by 100. -/
def colorTransferComponent (srcComponent dstComponent : List ℚ)
    (srcDev dstDev : ℚ) (v : ℤ) : List FQ :=
  transferComponent srcDev dstDev (mean dstComponent) (mean srcComponent)
    (rate v) dstComponent

/-- Clamping of a ratio into [0,1]; stated by the spec, absent from the
source.  Used only to compare the source's behavior against the spec's
words. -/
def clamp01 (q : ℚ) : ℚ := min 1 (max 0 q)

/-- The per-channel transfer as the spec's words describe it for claim C7:
the caller-supplied ratio is clamped into [0,1] before use.  This definition
follows the spec, not the source; the source (line 94) uses the raw
`v / 100` with no clamp. -/
def colorTransferComponentClamped (srcComponent dstComponent : List ℚ)
    (srcDev dstDev : ℚ) (v : ℤ) : List FQ :=
  transferComponent srcDev dstDev (mean dstComponent) (mean srcComponent)
    (clamp01 (rate v)) dstComponent

/-- `cvRound`: round to the nearest integer, ties to even (the rounding used
by `Mat::convertTo` on the way to an integral type). -/
def cvRound (x : ℚ) : ℤ :=
  if x - ⌊x⌋ < 1 / 2 then ⌊x⌋
  else if 1 / 2 < x - ⌊x⌋ then ⌊x⌋ + 1
  else if ⌊x⌋ % 2 = 0 then ⌊x⌋ else ⌊x⌋ + 1

/-- Line 116: `convertTo(subspaceTransfer, CV_8UC3)` — saturating conversion
of one (finite) sample to an unsigned 8-bit value: round, then clamp into
[0, 255]. -/
def saturateUChar (x : ℚ) : ℕ := (min (max (cvRound x) 0) 255).toNat

/-- Sample depth, in bits, of the integral image produced at line 116: the
source always converts to `CV_8UC3`, whatever the depth of the input images
read at lines 210-211 with `imread(_, -1)` (which preserves the on-disk
depth). -/
def outputDepth (_inputDepth : ℕ) : ℕ := 8

/-- Output sample depth as the spec's words describe it for claim C6: it
matches the original input's depth.  This definition follows the spec, not
the source; the source always converts to 8 bits. -/
def outputDepthClaimed (inputDepth : ℕ) : ℕ := inputDepth

/-! ## Keypress handler (`changeMode`, lines 132-193) -/

/-- The colorspace mode enumeration (lines 32-38). -/
inductive Mode
  | NONE
  | LAB
  | RGB
  | HSV
  | XYZ
deriving DecidableEq

/-- The trackbar state (lines 26-29): three channel labels and three
trackbar values (each value `v` denotes blend ratio `v / 100`). -/
structure Trackbars where
  componentNames : String × String × String
  componentVals : ℤ × ℤ × ℤ
deriving DecidableEq

/-- The mutable session state read and written by `changeMode`. -/
structure AppState where
  currentMode : Mode
  trackbars : Trackbars
deriving DecidableEq

/-- Observable outcome of one `changeMode` call: the returned int as a
continue/stop flag, the updated state, and whether `updateTransfer` (a
recomputation of the transfer) was triggered. -/
structure ModeChange where
  keepRunning : Bool
  state : AppState
  recomputed : Bool
deriving DecidableEq

/-- The escape key (line 166). -/
def escKey : Char := Char.ofNat 27

/-- The keypress handler (lines 132-193).  Selecting a new colorspace sets
the three labels for that space, resets all three trackbar values to 100
(line 178) and triggers `updateTransfer` (line 190); re-selecting the active
colorspace returns immediately with nothing changed; escape returns 0; any
other key returns 1 with nothing changed. -/
def changeMode (keypress : Char) (s : AppState) : ModeChange :=
  if keypress = 'r' ∨ keypress = 'R' then
    if s.currentMode = Mode.RGB then ⟨true, s, false⟩
    else ⟨true, ⟨Mode.RGB, ⟨("Red", "Green", "Blue"), (100, 100, 100)⟩⟩, true⟩
  else if keypress = 'l' ∨ keypress = 'L' then
    if s.currentMode = Mode.LAB then ⟨true, s, false⟩
    else ⟨true, ⟨Mode.LAB, ⟨("Luminance", "Alpha", "Beta"), (100, 100, 100)⟩⟩, true⟩
  else if keypress = 'h' ∨ keypress = 'H' then
    if s.currentMode = Mode.HSV then ⟨true, s, false⟩
    else ⟨true, ⟨Mode.HSV, ⟨("Hue", "Saturation", "Value"), (100, 100, 100)⟩⟩, true⟩
  else if keypress = 'x' ∨ keypress = 'X' then
    if s.currentMode = Mode.XYZ then ⟨true, s, false⟩
    else ⟨true, ⟨Mode.XYZ, ⟨("X", "Y", "Z"), (100, 100, 100)⟩⟩, true⟩
  else if keypress = escKey then ⟨false, s, false⟩
  else ⟨true, s, false⟩

/-! ## Input validation in `main` (lines 209-217) -/

/-- What `main` observes of a loaded input image: whether `imread` returned
an empty matrix (missing or unreadable file) and its channel count. -/
structure InputMat where
  isEmpty : Bool
  channels : ℕ
deriving DecidableEq

/-- Line 214 message. -/
def imageDataMissingMsg : String := "Image data missing"

/-- Line 216 message. -/
def notColorImageMsg : String := "One of source/dest may not be a color image"

/-- The validation in `main` (lines 213-217): `fatalError` prints the given
message and calls `exit(1)`.  Returns `some (message, exitCode)` when the
program aborts, `none` when validation passes. -/
def mainValidate (source dest : InputMat) : Option (String × ℕ) :=
  if source.isEmpty || dest.isEmpty then some (imageDataMissingMsg, 1)
  else if source.channels < 3 || dest.channels < 3 then
    some (notColorImageMsg, 1)
  else none

/-! ## Helper lemmas -/

theorem zipWith_map_self {α β γ : Type} (f : α → β → γ) (g : α → β)
    (l : List α) :
    List.zipWith f l (l.map g) = l.map fun x => f x (g x) := by
  induction l with
  | nil => rfl
  | cons x xs ih => simp [ih]

theorem transferComponent_eq_map (srcDev dstDev dstAvg srcAvg r : ℚ)
    (l : List ℚ) :
    transferComponent srcDev dstDev dstAvg srcAvg r l
      = l.map fun x =>
          fadd (fmul (some x) (some (1 - r)))
            (fmul
              (fadd
                (fmul (fdiv (some srcDev) (some dstDev))
                  (fsub (some x) (some dstAvg)))
                (some srcAvg))
              (some r)) := by
  unfold transferComponent modifiedComponent
  exact zipWith_map_self _ _ l

theorem transferComponent_some (srcDev dstDev dstAvg srcAvg r : ℚ)
    (hd : dstDev ≠ 0) (l : List ℚ) :
    transferComponent srcDev dstDev dstAvg srcAvg r l
      = l.map fun x =>
          some (x * (1 - r) + (srcDev / dstDev * (x - dstAvg) + srcAvg) * r) := by
  rw [transferComponent_eq_map]
  have hfun : (fun x =>
        fadd (fmul (some x) (some (1 - r)))
          (fmul
            (fadd
              (fmul (fdiv (some srcDev) (some dstDev))
                (fsub (some x) (some dstAvg)))
              (some srcAvg))
            (some r)))
      = fun x : ℚ =>
          some (x * (1 - r) + (srcDev / dstDev * (x - dstAvg) + srcAvg) * r) := by
    funext x
    simp [fadd, fmul, fsub, fdiv, hd]
  rw [hfun]

theorem transferComponent_zero_dev (srcDev dstAvg srcAvg r : ℚ)
    (l : List ℚ) :
    transferComponent srcDev 0 dstAvg srcAvg r l = l.map fun _ => none := by
  rw [transferComponent_eq_map]
  have hfun : (fun x =>
        fadd (fmul (some x) (some (1 - r)))
          (fmul
            (fadd
              (fmul (fdiv (some srcDev) (some 0))
                (fsub (some x) (some dstAvg)))
              (some srcAvg))
            (some r)))
      = fun _ : ℚ => (none : FQ) := by
    funext x
    simp [fadd, fmul, fsub, fdiv]
  rw [hfun]

theorem sum_map_affine (a b : ℚ) (l : List ℚ) :
    (l.map fun x => a * x + b).sum = a * l.sum + b * l.length := by
  induction l with
  | nil => simp
  | cons x xs ih =>
    simp only [List.map_cons, List.sum_cons, ih, List.length_cons]
    push_cast
    ring

theorem sum_map_mul_const (c : ℚ) (f : ℚ → ℚ) (l : List ℚ) :
    (l.map fun x => c * f x).sum = c * (l.map f).sum := by
  induction l with
  | nil => simp
  | cons x xs ih =>
    simp only [List.map_cons, List.sum_cons, ih]
    ring

theorem length_ne_zero_q (l : List ℚ) (h : l ≠ []) : (l.length : ℚ) ≠ 0 := by
  have : l.length ≠ 0 := fun hl => h (List.length_eq_zero.mp hl)
  exact_mod_cast this

theorem mean_map_affine (a b : ℚ) (l : List ℚ) (h : l ≠ []) :
    mean (l.map fun x => a * x + b) = a * mean l + b := by
  have hn := length_ne_zero_q l h
  unfold mean
  rw [sum_map_affine, List.length_map]
  field_simp

theorem variance_map_affine (a b : ℚ) (l : List ℚ) (h : l ≠ []) :
    variance (l.map fun x => a * x + b) = a ^ 2 * variance l := by
  unfold variance
  rw [mean_map_affine a b l h, List.map_map, List.length_map]
  have hfun : ((fun x => (x - (a * mean l + b)) ^ 2) ∘ fun x => a * x + b)
      = fun x : ℚ => a ^ 2 * (x - mean l) ^ 2 := by
    funext x
    simp only [Function.comp]
    ring
  rw [hfun, sum_map_mul_const (a ^ 2) (fun x => (x - mean l) ^ 2) l]
  ring

theorem mean_map_transfer (a c b : ℚ) (l : List ℚ) (h : l ≠ []) :
    mean (l.map fun x => a * (x - c) + b) = a * (mean l - c) + b := by
  have hfun : (fun x : ℚ => a * (x - c) + b) = fun x => a * x + (b - a * c) := by
    funext x
    ring
  rw [hfun, mean_map_affine a (b - a * c) l h]
  ring

theorem variance_map_transfer (a c b : ℚ) (l : List ℚ) (h : l ≠ []) :
    variance (l.map fun x => a * (x - c) + b) = a ^ 2 * variance l := by
  have hfun : (fun x : ℚ => a * (x - c) + b) = fun x => a * x + (b - a * c) := by
    funext x
    ring
  rw [hfun, variance_map_affine a (b - a * c) l h]

theorem mean_replicate (n : ℕ) (c : ℚ) (h : n ≠ 0) :
    mean (List.replicate n c) = c := by
  unfold mean
  rw [List.sum_replicate, List.length_replicate, nsmul_eq_mul,
    mul_div_cancel_left₀ _ (by exact_mod_cast h : ((n : ℚ) ≠ 0))]

theorem variance_replicate (n : ℕ) (c : ℚ) :
    variance (List.replicate n c) = 0 := by
  cases n with
  | zero => simp [variance, mean]
  | succ m =>
    unfold variance
    rw [List.map_replicate, mean_replicate (m + 1) c (Nat.succ_ne_zero m)]
    simp

/-! ## Claims -/

/-- Claim C1 (code_bug): the source does NOT guard the division
`srcDevs[c] / dstDevs[c]` at line 100.  For a flat target channel (every
pixel equal to `c`, so its log-space standard deviation is 0 — the first
conjunct), every pixel of the transferred channel is non-finite, at every
blend ratio, instead of the guarded value `srcAvg[c]` the spec requires. -/
theorem C1_flat_target_channel_nonfinite (srcPlane : List ℚ) (srcDev c : ℚ)
    (v : ℤ) (n : ℕ) :
    (0 : ℚ) ^ 2 = variance (List.replicate n c)
    ∧ colorTransferComponent srcPlane (List.replicate n c) srcDev 0 v
        = List.replicate n none := by
  constructor
  · rw [variance_replicate]
    norm_num
  · unfold colorTransferComponent
    rw [transferComponent_zero_dev, List.map_replicate]

/-- Claim C2 (confirmed): with a non-zero target standard deviation, the
log-space result of a channel is
`dstPlane[c] * (1 - rate) + ((srcDev/dstDev) * (dstPlane[c] - dstAvg) + srcAvg) * rate`
pixelwise, where the averages are the means over all pixels of the
log-transformed planes and the rate is the trackbar value over 100. -/
theorem C2_blend_formula (srcPlane dstPlane : List ℚ) (srcDev dstDev : ℚ)
    (v : ℤ) (hs0 : 0 ≤ srcDev) (hs : srcDev ^ 2 = variance srcPlane)
    (hd0 : 0 ≤ dstDev) (hd : dstDev ^ 2 = variance dstPlane)
    (hdne : dstDev ≠ 0) :
    colorTransferComponent srcPlane dstPlane srcDev dstDev v
      = dstPlane.map fun x =>
          some (x * (1 - rate v)
            + (srcDev / dstDev * (x - mean dstPlane) + mean srcPlane) * rate v) := by
  unfold colorTransferComponent
  exact transferComponent_some _ _ _ _ _ hdne dstPlane

/-- Witness for C2 at `srcPlane = [0,2]` (mean 1, std dev 1),
`dstPlane = [0,4]` (mean 2, std dev 2), trackbar value 50. -/
theorem C2_blend_formula_witness :
    (0 : ℚ) ≤ 1 ∧ (1 : ℚ) ^ 2 = variance [0, 2]
    ∧ (0 : ℚ) ≤ 2 ∧ (2 : ℚ) ^ 2 = variance [0, 4] ∧ (2 : ℚ) ≠ 0
    ∧ colorTransferComponent [0, 2] [0, 4] 1 2 50
        = List.map (fun x =>
            some (x * (1 - rate 50)
              + (1 / 2 * (x - mean [0, 4]) + mean [0, 2]) * rate 50)) [0, 4] :=
  ⟨by norm_num, by norm_num [variance, mean], by norm_num,
    by norm_num [variance, mean], by norm_num,
    C2_blend_formula [0, 2] [0, 4] 1 2 50 (by norm_num)
      (by norm_num [variance, mean]) (by norm_num)
      (by norm_num [variance, mean]) (by norm_num)⟩

/-- Counterexample to claim C3 as stated: it is NOT true that for every
reference and target the log-space core at ratio 0 returns the unmodified
target plane — a flat target channel (standard deviation 0) yields
non-finite values instead, because `modified * 0` is `NaN * 0 = NaN`. -/
theorem C3_ratio_zero_not_universal :
    ¬ ∀ (srcPlane dstPlane : List ℚ) (srcDev dstDev : ℚ),
        0 ≤ srcDev → srcDev ^ 2 = variance srcPlane →
        0 ≤ dstDev → dstDev ^ 2 = variance dstPlane →
        colorTransferComponent srcPlane dstPlane srcDev dstDev 0
          = dstPlane.map some := by
  intro h
  have h2 := h [0, 2] [1, 1] 1 0 (by norm_num) (by norm_num [variance, mean])
    (le_refl 0) (by norm_num [variance, mean])
  exact absurd h2 (by decide)

/-- Claim C3 (corrected): at ratio 0 the log-space core returns exactly the
unmodified target channel plane, provided the target channel's log-space
standard deviation is non-zero. -/
theorem C3_ratio_zero_gives_target (srcPlane dstPlane : List ℚ)
    (srcDev dstDev : ℚ) (hdne : dstDev ≠ 0) :
    colorTransferComponent srcPlane dstPlane srcDev dstDev 0
      = dstPlane.map some := by
  unfold colorTransferComponent
  rw [transferComponent_some _ _ _ _ _ hdne]
  have hfun : (fun x : ℚ =>
      some (x * (1 - rate 0)
        + (srcDev / dstDev * (x - mean dstPlane) + mean srcPlane) * rate 0))
      = fun x : ℚ => (some x : FQ) := by
    funext x
    have hr : rate 0 = 0 := by norm_num [rate]
    rw [hr]
    norm_num
  rw [hfun]

/-- Witness for C3 (corrected) at `srcPlane = [0,2]`, `dstPlane = [0,4]`. -/
theorem C3_ratio_zero_gives_target_witness :
    (2 : ℚ) ≠ 0
    ∧ colorTransferComponent [0, 2] [0, 4] 1 2 0 = List.map some [0, 4] :=
  ⟨by norm_num, C3_ratio_zero_gives_target [0, 2] [0, 4] 1 2 (by norm_num)⟩

/-- Claim C4 (confirmed): at ratio 1 (trackbar value 100) the log-space
result plane is the fully transferred plane
`(srcDev/dstDev) * (x - dstAvg) + srcAvg`, whose mean over all pixels is the
reference mean and whose variance is the reference variance — so its
standard deviation (the non-negative square root `srcDev`, by `hs0`/`hs`) is
the reference standard deviation.  Requires a non-empty target plane and a
non-zero target standard deviation. -/
theorem C4_ratio_one_matches_reference_stats (srcPlane dstPlane : List ℚ)
    (srcDev dstDev : ℚ) (hne : dstPlane ≠ [])
    (hs0 : 0 ≤ srcDev) (hs : srcDev ^ 2 = variance srcPlane)
    (hd : dstDev ^ 2 = variance dstPlane) (hdne : dstDev ≠ 0) :
    colorTransferComponent srcPlane dstPlane srcDev dstDev 100
      = (dstPlane.map fun x =>
          srcDev / dstDev * (x - mean dstPlane) + mean srcPlane).map some
    ∧ mean (dstPlane.map fun x =>
        srcDev / dstDev * (x - mean dstPlane) + mean srcPlane) = mean srcPlane
    ∧ variance (dstPlane.map fun x =>
        srcDev / dstDev * (x - mean dstPlane) + mean srcPlane)
        = variance srcPlane := by
  refine ⟨?_, ?_, ?_⟩
  · unfold colorTransferComponent
    rw [transferComponent_some _ _ _ _ _ hdne, List.map_map]
    have hfun : (fun x : ℚ =>
        some (x * (1 - rate 100)
          + (srcDev / dstDev * (x - mean dstPlane) + mean srcPlane) * rate 100))
        = (some ∘ fun x : ℚ =>
            srcDev / dstDev * (x - mean dstPlane) + mean srcPlane) := by
      funext x
      have hr : rate 100 = 1 := by norm_num [rate]
      rw [hr]
      simp [Function.comp]
    rw [hfun]
  · rw [mean_map_transfer _ _ _ _ hne]
    ring
  · rw [variance_map_transfer _ _ _ _ hne, div_pow, ← hd,
      div_mul_cancel₀ _ (pow_ne_zero 2 hdne), hs]

/-- Witness for C4 at `srcPlane = [0,2]` (mean 1, std dev 1),
`dstPlane = [0,4]` (mean 2, std dev 2). -/
theorem C4_ratio_one_matches_reference_stats_witness :
    ([0, 4] : List ℚ) ≠ []
    ∧ (0 : ℚ) ≤ 1 ∧ (1 : ℚ) ^ 2 = variance [0, 2]
    ∧ (2 : ℚ) ^ 2 = variance [0, 4] ∧ (2 : ℚ) ≠ 0
    ∧ mean (([0, 4] : List ℚ).map fun x =>
        1 / 2 * (x - mean [0, 4]) + mean [0, 2]) = mean [0, 2]
    ∧ variance (([0, 4] : List ℚ).map fun x =>
        1 / 2 * (x - mean [0, 4]) + mean [0, 2]) = variance [0, 2] := by
  refine ⟨by simp, by norm_num, by norm_num [variance, mean],
    by norm_num [variance, mean], by norm_num, ?_, ?_⟩
  · exact (C4_ratio_one_matches_reference_stats [0, 2] [0, 4] 1 2 (by simp)
      (by norm_num) (by norm_num [variance, mean])
      (by norm_num [variance, mean]) (by norm_num)).2.1
  · exact (C4_ratio_one_matches_reference_stats [0, 2] [0, 4] 1 2 (by simp)
      (by norm_num) (by norm_num [variance, mean])
      (by norm_num [variance, mean]) (by norm_num)).2.2

/-- Claim C5 (code_bug): the source applies `cv::log` (lines 79-80) with no
prior clamping, so any sample that is non-positive — e.g. the 0 of a black
pixel's channel — reaches the log and produces a non-finite value in the
log-transformed plane, for any choice of the abstracted log function. -/
theorem C5_log_receives_nonpositive_sample (ln : ℚ → ℚ) (l : List ℚ) (x : ℚ)
    (hmem : x ∈ l) (hle : x ≤ 0) : none ∈ cvLog ln l := by
  unfold cvLog
  exact List.mem_map.mpr ⟨x, hmem, by rw [if_neg (not_lt.mpr hle)]⟩

/-- Witness for C5: a plane holding a zero sample maps to a plane holding a
non-finite value. -/
theorem C5_log_receives_nonpositive_sample_witness :
    (0 : ℚ) ∈ ([0, 128] : List ℚ) ∧ (0 : ℚ) ≤ 0
    ∧ none ∈ cvLog id [0, 128] :=
  ⟨by simp, le_refl 0,
    C5_log_receives_nonpositive_sample id [0, 128] 0 (by simp) (le_refl 0)⟩

theorem cvRound_cases (x : ℚ) : cvRound x = ⌊x⌋ ∨ cvRound x = ⌊x⌋ + 1 := by
  unfold cvRound
  split_ifs <;> simp

theorem abs_cvRound_sub_le (x : ℚ) : |(cvRound x : ℚ) - x| ≤ 1 / 2 := by
  have h0 : (⌊x⌋ : ℚ) ≤ x := Int.floor_le x
  have h1 : x < ⌊x⌋ + 1 := Int.lt_floor_add_one x
  unfold cvRound
  split_ifs with hr hr2 he
  · rw [abs_le]
    constructor <;> linarith
  · rw [not_lt] at hr
    rw [abs_le]
    push_cast
    constructor <;> linarith
  · rw [not_lt] at hr hr2
    rw [abs_le]
    constructor <;> linarith
  · rw [not_lt] at hr hr2
    rw [abs_le]
    push_cast
    constructor <;> linarith

theorem cvRound_nonneg (x : ℚ) (h : 0 ≤ x) : 0 ≤ cvRound x := by
  have hf : (0 : ℤ) ≤ ⌊x⌋ := Int.floor_nonneg.mpr h
  rcases cvRound_cases x with hc | hc <;> omega

theorem cvRound_le_255 (x : ℚ) (h : x ≤ 255) : cvRound x ≤ 255 := by
  have habs := abs_cvRound_sub_le x
  rw [abs_le] at habs
  have h2 : (cvRound x : ℚ) < 256 := by linarith [habs.2]
  have h3 : cvRound x < 256 := by exact_mod_cast h2
  omega

/-- Counterexample to claim C6 as stated: the source (line 116) always
converts to 8-bit unsigned samples, so for a 16-bit input the output depth
does not match the input depth as the spec claims. -/
theorem C6_output_depth_mismatch : outputDepth 16 ≠ outputDepthClaimed 16 := by
  decide

/-- Claim C6 (corrected): the output conversion at line 116 targets 8-bit
unsigned samples whatever the input depth; each (finite) sample saturates to
the nearest bound of [0, 255] on overflow/underflow — never wrapping — and
an in-range sample is rounded to within 1/2 of its value. -/
theorem C6_saturating_8bit_conversion (d : ℕ) (x : ℚ) :
    outputDepth d = 8
    ∧ saturateUChar x ≤ 255
    ∧ (x < 0 → saturateUChar x = 0)
    ∧ (255 < x → saturateUChar x = 255)
    ∧ (0 ≤ x → x ≤ 255 → |(saturateUChar x : ℚ) - x| ≤ 1 / 2) := by
  refine ⟨rfl, ?_, ?_, ?_, ?_⟩
  · unfold saturateUChar
    omega
  · intro hx
    have hf : ⌊x⌋ < 0 := Int.floor_lt.mpr (by exact_mod_cast hx)
    rcases cvRound_cases x with hc | hc <;> (unfold saturateUChar; omega)
  · intro hx
    have hf : (255 : ℤ) ≤ ⌊x⌋ := Int.le_floor.mpr (by exact_mod_cast hx.le)
    rcases cvRound_cases x with hc | hc <;> (unfold saturateUChar; omega)
  · intro h0 h255
    have hge := cvRound_nonneg x h0
    have hle := cvRound_le_255 x h255
    have hsat : saturateUChar x = (cvRound x).toNat := by
      unfold saturateUChar
      omega
    have hcast : ((saturateUChar x : ℕ) : ℚ) = (cvRound x : ℚ) := by
      rw [hsat]
      exact_mod_cast Int.toNat_of_nonneg hge
    rw [hcast]
    exact abs_cvRound_sub_le x

/-- Witness for C6 (corrected): depth is 8, 300 saturates to 255, -3
saturates to 0, and in-range 100 is reproduced within 1/2. -/
theorem C6_saturating_8bit_conversion_witness :
    outputDepth 16 = 8 ∧ saturateUChar 300 = 255 ∧ saturateUChar (-3) = 0
    ∧ |(saturateUChar 100 : ℚ) - 100| ≤ 1 / 2 :=
  ⟨(C6_saturating_8bit_conversion 16 0).1,
   (C6_saturating_8bit_conversion 0 300).2.2.2.1 (by norm_num),
   (C6_saturating_8bit_conversion 0 (-3)).2.2.1 (by norm_num),
   (C6_saturating_8bit_conversion 0 100).2.2.2.2 (by norm_num) (by norm_num)⟩

/-- Counterexample to claim C7 as stated: the engine does not clamp the
blend ratio.  A trackbar value of 200 yields rate 2, outside [0, 1], and the
transfer computed with it differs from the transfer computed with the
clamped rate — so no clamping happens before the blend. -/
theorem C7_ratio_not_clamped :
    rate 200 = 2 ∧ ¬ rate 200 ≤ 1
    ∧ colorTransferComponent [0, 2] [0, 4] 1 2 200
        ≠ colorTransferComponentClamped [0, 2] [0, 4] 1 2 200 := by
  refine ⟨by norm_num [rate], by norm_num [rate], ?_⟩
  simp [colorTransferComponent, colorTransferComponentClamped, transferComponent,
    modifiedComponent, fadd, fmul, fsub, fdiv, mean, rate, clamp01]
  norm_num

/-- Claim C7 (corrected): the engine never rejects a ratio, and for every
trackbar value in the range [0, 100] the UI can deliver (`createTrackbar`
is created with maximum 100), the rate `v / 100` already lies in [0, 1], so
clamping would be a no-op and the source's unclamped transfer agrees with
the clamped one. -/
theorem C7_trackbar_ratio_in_range (v : ℤ) (h0 : 0 ≤ v) (h1 : v ≤ 100) :
    0 ≤ rate v ∧ rate v ≤ 1 ∧ rate v = clamp01 (rate v)
    ∧ ∀ (srcPlane dstPlane : List ℚ) (srcDev dstDev : ℚ),
        colorTransferComponent srcPlane dstPlane srcDev dstDev v
          = colorTransferComponentClamped srcPlane dstPlane srcDev dstDev v := by
  have hr0 : 0 ≤ rate v := by
    unfold rate
    exact div_nonneg (by exact_mod_cast h0) (by norm_num)
  have hr1 : rate v ≤ 1 := by
    unfold rate
    rw [div_le_one (by norm_num : (0 : ℚ) < 100)]
    exact_mod_cast h1
  have hcl : rate v = clamp01 (rate v) := by
    unfold clamp01
    rw [max_eq_right hr0, min_eq_right hr1]
  refine ⟨hr0, hr1, hcl, ?_⟩
  intro srcPlane dstPlane srcDev dstDev
  unfold colorTransferComponent colorTransferComponentClamped
  rw [← hcl]

/-- Witness for C7 (corrected) at trackbar value 50. -/
theorem C7_trackbar_ratio_in_range_witness :
    (0 : ℤ) ≤ 50 ∧ (50 : ℤ) ≤ 100 ∧ rate 50 = clamp01 (rate 50)
    ∧ colorTransferComponent [0, 2] [0, 4] 1 2 50
        = colorTransferComponentClamped [0, 2] [0, 4] 1 2 50 :=
  ⟨by norm_num, by norm_num,
   (C7_trackbar_ratio_in_range 50 (by norm_num) (by norm_num)).2.2.1,
   (C7_trackbar_ratio_in_range 50 (by norm_num) (by norm_num)).2.2.2
     [0, 2] [0, 4] 1 2⟩

/-- Claim C8 (confirmed): switching to a different colorspace sets all three
trackbar values to 100 (ratio `100 / 100 = 1`, first conjunct) and installs
that colorspace's three channel labels, triggering a recomputation, for both
the lower- and upper-case key; re-selecting the colorspace already active
returns with the state untouched and no recomputation. -/
theorem C8_mode_switch_policy (s : AppState) :
    rate 100 = 1
    ∧ (s.currentMode ≠ Mode.RGB → changeMode 'r' s
        = ⟨true, ⟨Mode.RGB, ⟨("Red", "Green", "Blue"), (100, 100, 100)⟩⟩, true⟩)
    ∧ (s.currentMode ≠ Mode.RGB → changeMode 'R' s
        = ⟨true, ⟨Mode.RGB, ⟨("Red", "Green", "Blue"), (100, 100, 100)⟩⟩, true⟩)
    ∧ (s.currentMode = Mode.RGB → changeMode 'r' s = ⟨true, s, false⟩)
    ∧ (s.currentMode = Mode.RGB → changeMode 'R' s = ⟨true, s, false⟩)
    ∧ (s.currentMode ≠ Mode.LAB → changeMode 'l' s
        = ⟨true, ⟨Mode.LAB, ⟨("Luminance", "Alpha", "Beta"), (100, 100, 100)⟩⟩, true⟩)
    ∧ (s.currentMode ≠ Mode.LAB → changeMode 'L' s
        = ⟨true, ⟨Mode.LAB, ⟨("Luminance", "Alpha", "Beta"), (100, 100, 100)⟩⟩, true⟩)
    ∧ (s.currentMode = Mode.LAB → changeMode 'l' s = ⟨true, s, false⟩)
    ∧ (s.currentMode = Mode.LAB → changeMode 'L' s = ⟨true, s, false⟩)
    ∧ (s.currentMode ≠ Mode.HSV → changeMode 'h' s
        = ⟨true, ⟨Mode.HSV, ⟨("Hue", "Saturation", "Value"), (100, 100, 100)⟩⟩, true⟩)
    ∧ (s.currentMode ≠ Mode.HSV → changeMode 'H' s
        = ⟨true, ⟨Mode.HSV, ⟨("Hue", "Saturation", "Value"), (100, 100, 100)⟩⟩, true⟩)
    ∧ (s.currentMode = Mode.HSV → changeMode 'h' s = ⟨true, s, false⟩)
    ∧ (s.currentMode = Mode.HSV → changeMode 'H' s = ⟨true, s, false⟩)
    ∧ (s.currentMode ≠ Mode.XYZ → changeMode 'x' s
        = ⟨true, ⟨Mode.XYZ, ⟨("X", "Y", "Z"), (100, 100, 100)⟩⟩, true⟩)
    ∧ (s.currentMode ≠ Mode.XYZ → changeMode 'X' s
        = ⟨true, ⟨Mode.XYZ, ⟨("X", "Y", "Z"), (100, 100, 100)⟩⟩, true⟩)
    ∧ (s.currentMode = Mode.XYZ → changeMode 'x' s = ⟨true, s, false⟩)
    ∧ (s.currentMode = Mode.XYZ → changeMode 'X' s = ⟨true, s, false⟩) := by
  refine ⟨by norm_num [rate], ?_, ?_, ?_, ?_, ?_, ?_, ?_, ?_, ?_, ?_, ?_, ?_,
    ?_, ?_, ?_, ?_⟩ <;>
    intro h <;> simp [changeMode, h]

/-- Witness for C8: from LAB with ratios (50, 60, 70), pressing 'r' switches
to RGB with ratios reset to 100 and RGB labels, and pressing 'l' changes
nothing. -/
theorem C8_mode_switch_policy_witness :
    changeMode 'r'
        (AppState.mk Mode.LAB ⟨("Luminance", "Alpha", "Beta"), (50, 60, 70)⟩)
      = ⟨true, ⟨Mode.RGB, ⟨("Red", "Green", "Blue"), (100, 100, 100)⟩⟩, true⟩
    ∧ changeMode 'l'
        (AppState.mk Mode.LAB ⟨("Luminance", "Alpha", "Beta"), (50, 60, 70)⟩)
      = ⟨true,
          AppState.mk Mode.LAB ⟨("Luminance", "Alpha", "Beta"), (50, 60, 70)⟩,
          false⟩ := by
  refine ⟨?_, ?_⟩
  · exact (C8_mode_switch_policy _).2.1 (by decide)
  · exact (C8_mode_switch_policy _).2.2.2.2.2.2.2.1 rfl

/-- Claim C9 (confirmed): a missing/unreadable input (empty matrix from
`imread`) aborts with exit code 1 and the "Image data missing" message; an
input with fewer than 3 channels aborts with exit code 1 and the distinct
"not a color image" message; every abort of the validation carries a
non-zero exit code, and the two messages differ, so the failed precondition
is identifiable. -/
theorem C9_input_validation (source dest : InputMat) :
    (source.isEmpty = true ∨ dest.isEmpty = true →
      mainValidate source dest = some (imageDataMissingMsg, 1))
    ∧ (source.isEmpty = false → dest.isEmpty = false →
        source.channels < 3 ∨ dest.channels < 3 →
        mainValidate source dest = some (notColorImageMsg, 1))
    ∧ (∀ msg : String, ∀ code : ℕ,
        mainValidate source dest = some (msg, code) → code ≠ 0)
    ∧ imageDataMissingMsg ≠ notColorImageMsg := by
  refine ⟨?_, ?_, ?_, ?_⟩
  · intro h
    rcases h with h | h <;> simp [mainValidate, h]
  · intro hs hd hc
    rcases hc with hc | hc <;> simp [mainValidate, hs, hd, hc]
  · intro msg code h
    unfold mainValidate at h
    split_ifs at h <;> simp_all <;> omega
  · decide

/-- Witness for C9: an empty source aborts with the missing-data message; a
1-channel destination aborts with the not-a-color-image message. -/
theorem C9_input_validation_witness :
    mainValidate ⟨true, 3⟩ ⟨false, 3⟩ = some (imageDataMissingMsg, 1)
    ∧ mainValidate ⟨false, 3⟩ ⟨false, 1⟩ = some (notColorImageMsg, 1) :=
  ⟨(C9_input_validation ⟨true, 3⟩ ⟨false, 3⟩).1 (Or.inl rfl),
   (C9_input_validation ⟨false, 3⟩ ⟨false, 1⟩).2.1 rfl rfl
     (Or.inr (by norm_num))⟩

/-- Claim C10 (confirmed): any keypress outside
{'r','R','l','L','h','H','x','X', ESC} leaves mode, ratios and labels
unchanged, triggers no recomputation, and keeps the event loop running; the
handler signals termination (returns 0) exactly for the ESC key. -/
theorem C10_unhandled_keys_leave_state (k : Char) (s : AppState) :
    (k ∉ (['r', 'R', 'l', 'L', 'h', 'H', 'x', 'X', escKey] : List Char) →
      changeMode k s = ⟨true, s, false⟩)
    ∧ ((changeMode k s).keepRunning = false ↔ k = escKey) := by
  unfold changeMode
  split_ifs with h1 hm1 h2 hm2 h3 hm3 h4 hm4 h5
  · refine ⟨fun _ => rfl, ?_⟩
    simp
    intro hk
    subst hk
    rcases h1 with h | h <;> exact absurd h (by decide)
  · refine ⟨fun hn => absurd (by rcases h1 with h | h <;> subst h <;> simp) hn, ?_⟩
    simp
    intro hk
    subst hk
    rcases h1 with h | h <;> exact absurd h (by decide)
  · refine ⟨fun _ => rfl, ?_⟩
    simp
    intro hk
    subst hk
    rcases h2 with h | h <;> exact absurd h (by decide)
  · refine ⟨fun hn => absurd (by rcases h2 with h | h <;> subst h <;> simp) hn, ?_⟩
    simp
    intro hk
    subst hk
    rcases h2 with h | h <;> exact absurd h (by decide)
  · refine ⟨fun _ => rfl, ?_⟩
    simp
    intro hk
    subst hk
    rcases h3 with h | h <;> exact absurd h (by decide)
  · refine ⟨fun hn => absurd (by rcases h3 with h | h <;> subst h <;> simp) hn, ?_⟩
    simp
    intro hk
    subst hk
    rcases h3 with h | h <;> exact absurd h (by decide)
  · refine ⟨fun _ => rfl, ?_⟩
    simp
    intro hk
    subst hk
    rcases h4 with h | h <;> exact absurd h (by decide)
  · refine ⟨fun hn => absurd (by rcases h4 with h | h <;> subst h <;> simp) hn, ?_⟩
    simp
    intro hk
    subst hk
    rcases h4 with h | h <;> exact absurd h (by decide)
  · refine ⟨fun hn => absurd (by subst h5; simp) hn, ?_⟩
    simp
    exact h5
  · refine ⟨fun _ => rfl, ?_⟩
    simp
    exact h5

/-- Witness for C10: the unhandled key 'q' changes nothing and keeps
running. -/
theorem C10_unhandled_keys_leave_state_witness :
    changeMode 'q'
        (AppState.mk Mode.LAB ⟨("Luminance", "Alpha", "Beta"), (50, 60, 70)⟩)
      = ⟨true,
          AppState.mk Mode.LAB ⟨("Luminance", "Alpha", "Beta"), (50, 60, 70)⟩,
          false⟩ :=
  (C10_unhandled_keys_leave_state 'q'
    (AppState.mk Mode.LAB ⟨("Luminance", "Alpha", "Beta"), (50, 60, 70)⟩)).1
    (by decide)

end ColorTransfer
